import Mathlib

/-!
# Verification of `src/svs/saml.py` (SvHu/svs)

A shallow embedding of the SAML backend of the InAcademia service
(`src/src/svs/saml.py`) together with proofs about its decision logic:
service-provider persona selection, authentication-request binding choice,
user-identifier derivation, response handling, federation-membership
checking, and entity-id canonicalization.

Python strings are modelled as `List Char` (`PyStr`).  The Python 2
standard-library helpers used by the code (`urlparse.urlparse`,
`urlparse.urlunparse`, `urlparse.parse_qs`, `urlparse.unquote`) are embedded
faithfully from the CPython 2.7 sources, specialized to the call sites'
default arguments (`scheme=''`, `allow_fragments=True`,
`keep_blank_values=0`, `strict_parsing=0`).  Fallible Python operations
(`raise`, `KeyError`, `IndexError`) are modelled with `Except`/`Option`.
-/

set_option maxRecDepth 4000

/-- A Python string, modelled as a list of characters. -/
abbrev PyStr := List Char

/-- Python `s.find(c, start)`: index of the first occurrence of `c` in `s`
at or after position `start`; `none` models Python's `-1`. -/
def pyFindFrom (s : PyStr) (c : Char) (start : Nat) : Option Nat :=
  ((s.drop start).findIdx? (fun x => x = c)).map (fun i => i + start)

/-- Python `s.find(c)`. -/
def pyFind (s : PyStr) (c : Char) : Option Nat :=
  pyFindFrom s c 0

/-- Python `s.rfind(c)`: index of the last occurrence of `c` in `s`;
`none` models Python's `-1`. -/
def pyRfind (s : PyStr) (c : Char) : Option Nat :=
  (s.reverse.findIdx? (fun x => x = c)).map (fun i => s.length - 1 - i)

/-- Python `s.split(c, 1)`: split at the first occurrence of `c`.  When `c`
does not occur, the result is `(s, [])` (the call sites only use the second
component under a containment guard, as CPython does). -/
def pySplit1 (s : PyStr) (c : Char) : PyStr × PyStr :=
  match pyFind s c with
  | none => (s, [])
  | some i => (s.take i, s.drop (i + 1))

/-- Python `s.split(c)` (full split, no maxsplit): `''.split(c) == ['']`. -/
def pySplitAll : PyStr → Char → List PyStr
  | [], _ => [[]]
  | x :: xs, c =>
    if x = c then [] :: pySplitAll xs c
    else
      match pySplitAll xs c with
      | [] => [[x]]
      | h :: t => (x :: h) :: t

/-- Python dict lookup `d[k]`/`d.get(k)` on an association list (first
matching key wins; the dicts built by the embedded code have unique keys). -/
def dictGet {α : Type} [DecidableEq α] {β : Type} : List (α × β) → α → Option β
  | [], _ => none
  | (k', v) :: t, k => if k' = k then some v else dictGet t k

/-- Python `k in d` on an association list. -/
def dictContains {α : Type} [DecidableEq α] {β : Type} (d : List (α × β)) (k : α) : Bool :=
  (dictGet d k).isSome

/-- Python `d.get(k, default)` on an association list. -/
def dictGetD {α : Type} [DecidableEq α] {β : Type} (d : List (α × β)) (k : α) (dflt : β) : β :=
  (dictGet d k).getD dflt

/-- Python `x in l` for a list of strings. -/
def pyListIn (x : PyStr) (l : List PyStr) : Bool :=
  l.any (fun v => v = x)

/-! ## Embedded CPython 2.7 `urlparse` module -/

/-- `ValueError` raised by `urlparse.urlsplit` on a mismatched IPv6 bracket. -/
inductive UrlValueError : Type
  | invalidIPv6
  deriving DecidableEq, Repr

/-- Result of `urlparse.urlsplit`: `(scheme, netloc, path, query, fragment)`. -/
structure SplitResult where
  scheme : PyStr
  netloc : PyStr
  path : PyStr
  query : PyStr
  fragment : PyStr
  deriving DecidableEq, Repr

/-- Result of `urlparse.urlparse`:
`(scheme, netloc, path, params, query, fragment)`. -/
structure ParseResult where
  scheme : PyStr
  netloc : PyStr
  path : PyStr
  params : PyStr
  query : PyStr
  fragment : PyStr
  deriving DecidableEq, Repr

/-- CPython `urlparse.scheme_chars`. -/
def isSchemeChar (c : Char) : Bool :=
  c.isAlpha || c.isDigit || c = '+' || c = '-' || c = '.'

/-- CPython `urlparse._splitnetloc(url, start)`: the netloc extends to the
earliest of `/`, `?`, `#` at or after `start`, else to the end. -/
def splitnetloc (url : PyStr) (start : Nat) : PyStr × PyStr :=
  let delim := [('/' : Char), '?', '#'].foldl
    (fun d c =>
      match pyFindFrom url c start with
      | some w => min d w
      | none => d)
    url.length
  ((url.take delim).drop start, url.drop delim)

/-- CPython's mismatched-IPv6-bracket test on a netloc. -/
def badIPv6 (netloc : PyStr) : Bool :=
  (netloc.contains '[' && !netloc.contains ']') ||
    (netloc.contains ']' && !netloc.contains '[')

/-- The tail of CPython `urlparse.urlsplit` after scheme extraction: split
off the netloc (after `//`), then the fragment at the first `#`, then the
query at the first `?`. -/
def urlsplitRest (scheme url₀ : PyStr) : Except UrlValueError SplitResult :=
  let (netloc, url₁) :=
    if url₀.take 2 = "//".toList then splitnetloc url₀ 2 else ([], url₀)
  if badIPv6 netloc then .error .invalidIPv6
  else
    let (url₂, fragment) :=
      if url₁.contains '#' then pySplit1 url₁ '#' else (url₁, [])
    let (url₃, query) :=
      if url₂.contains '?' then pySplit1 url₂ '?' else (url₂, [])
    .ok ⟨scheme, netloc, url₃, query, fragment⟩

/-- CPython 2.7 `urlparse.urlsplit(url)` (with default arguments
`scheme=''`, `allow_fragments=True`, as at every call site of the source).
A scheme is recognized before the first `:` when the prefix is non-empty,
made of scheme characters, and — outside the literal-`http` fast path —
the remainder is not a bare port number. -/
def urlsplitPy (url : PyStr) : Except UrlValueError SplitResult :=
  match pyFind url ':' with
  | some i =>
    if 0 < i then
      if url.take i = "http".toList then
        urlsplitRest ((url.take i).map Char.toLower) (url.drop (i + 1))
      else if (url.take i).all isSchemeChar then
        let rest := url.drop (i + 1)
        if rest.isEmpty || !rest.all Char.isDigit then
          urlsplitRest ((url.take i).map Char.toLower) rest
        else urlsplitRest [] url
      else urlsplitRest [] url
    else urlsplitRest [] url
  | none => urlsplitRest [] url

/-- CPython `urlparse.uses_params`. -/
def uses_params : List PyStr :=
  ["ftp".toList, "hdl".toList, "prospero".toList, "http".toList,
   "imap".toList, "https".toList, "shttp".toList, "rtsp".toList,
   "rtspu".toList, "sip".toList, "sips".toList, "mms".toList,
   "".toList, "sftp".toList, "tel".toList]

/-- CPython `urlparse._splitparams(url)`: split the `;params` suffix of the
last path segment. -/
def splitparamsPy (url : PyStr) : PyStr × PyStr :=
  if url.contains '/' then
    match pyFindFrom url ';' ((pyRfind url '/').getD 0) with
    | none => (url, [])
    | some i => (url.take i, url.drop (i + 1))
  else
    match pyFind url ';' with
    | none => (url, [])
    | some i => (url.take i, url.drop (i + 1))

/-- CPython 2.7 `urlparse.urlparse(url)`: `urlsplit`, then split path
parameters when the scheme uses them and the path contains `;`. -/
def urlparsePy (url : PyStr) : Except UrlValueError ParseResult :=
  match urlsplitPy url with
  | .error e => .error e
  | .ok t =>
    if t.scheme ∈ uses_params ∧ ';' ∈ t.path then
      let (p, prm) := splitparamsPy t.path
      .ok ⟨t.scheme, t.netloc, p, prm, t.query, t.fragment⟩
    else
      .ok ⟨t.scheme, t.netloc, t.path, [], t.query, t.fragment⟩

/-- CPython `urlparse.urlunsplit((scheme, netloc, url, query, fragment))`. -/
def urlunsplitPy (scheme netloc url query fragment : PyStr) : PyStr :=
  let u₁ :=
    if netloc ≠ [] ∨ (url ≠ [] ∧ url.take 2 = "//".toList) then
      "//".toList ++ netloc ++
        (if url ≠ [] ∧ url.take 1 ≠ "/".toList then '/' :: url else url)
    else url
  let u₂ := if scheme ≠ [] then scheme ++ ':' :: u₁ else u₁
  let u₃ := if query ≠ [] then u₂ ++ '?' :: query else u₂
  if fragment ≠ [] then u₃ ++ '#' :: fragment else u₃

/-- CPython `urlparse.urlunparse((scheme, netloc, url, params, query,
fragment))`: re-attach non-empty params, then `urlunsplit`. -/
def urlunparsePy (scheme netloc url params query fragment : PyStr) : PyStr :=
  urlunsplitPy scheme netloc
    (if params ≠ [] then url ++ ';' :: params else url) query fragment

/-! ## Embedded CPython 2.7 `urlparse.parse_qs` (via `parse_qsl`, `unquote`) -/

/-- Numeric value of a hexadecimal digit (both cases), as keyed by CPython's
`_hextochr` table. -/
def hexVal (c : Char) : Option Nat :=
  if c.isDigit then some (c.toNat - '0'.toNat)
  else if 'a' ≤ c ∧ c ≤ 'f' then some (c.toNat - 'a'.toNat + 10)
  else if 'A' ≤ c ∧ c ≤ 'F' then some (c.toNat - 'A'.toNat + 10)
  else none

/-- CPython 2.7 `urllib.unquote(s)` as used by `urlparse.parse_qsl`: split
on `%`; a chunk starting with two hex digits is decoded, otherwise the `%`
is kept verbatim. -/
def unquotePy (s : PyStr) : PyStr :=
  match pySplitAll s '%' with
  | [] => s
  | b :: rest =>
    b ++ (rest.map (fun item =>
      match item with
      | c1 :: c2 :: tl =>
        match hexVal c1, hexVal c2 with
        | some h1, some h2 => Char.ofNat (16 * h1 + h2) :: tl
        | _, _ => '%' :: item
      | _ => '%' :: item)).flatten

/-- Python `s.replace('+', ' ')` (applied before unquoting). -/
def plusToSpace (s : PyStr) : PyStr :=
  s.map (fun c => if c = '+' then ' ' else c)

/-- CPython 2.7 `urlparse.parse_qsl(qs)` with default arguments
(`keep_blank_values=0`, `strict_parsing=0`): split on `&` and `;`, skip
empty chunks, skip chunks without `=`, skip empty values, and `+`/percent
decode names and values. -/
def parse_qslPy (qs : PyStr) : List (PyStr × PyStr) :=
  (((pySplitAll qs '&').map (fun s1 => pySplitAll s1 ';')).flatten).filterMap
    (fun nv =>
      if nv = [] then none
      else
        match pyFind nv '=' with
        | none => none
        | some i =>
          let value := nv.drop (i + 1)
          if value ≠ [] then
            some (unquotePy (plusToSpace (nv.take i)), unquotePy (plusToSpace value))
          else none)

/-- Append a value under a key, Python-dict style (extend the existing
entry's list, else add a new entry at the end). -/
def dictAppend (d : List (PyStr × List PyStr)) (k : PyStr) (v : PyStr) :
    List (PyStr × List PyStr) :=
  match d with
  | [] => [(k, [v])]
  | (k', vs) :: t => if k' = k then (k', vs ++ [v]) :: t else (k', vs) :: dictAppend t k v

/-- CPython 2.7 `urlparse.parse_qs(qs)`: group the `parse_qsl` pairs into a
dict of value lists. -/
def parse_qsPy (qs : PyStr) : List (PyStr × List PyStr) :=
  (parse_qslPy qs).foldl (fun d kv => dictAppend d kv.1 kv.2) []

/-! ## Constants

SAML URN constants imported by `saml.py` from `pysaml2` (`saml2.saml`,
`saml2`), with their standard values. -/

/-- `saml2.saml.NAMEID_FORMAT_PERSISTENT`. -/
def NAMEID_FORMAT_PERSISTENT : PyStr :=
  "urn:oasis:names:tc:SAML:2.0:nameid-format:persistent".toList

/-- `saml2.saml.NAMEID_FORMAT_TRANSIENT`. -/
def NAMEID_FORMAT_TRANSIENT : PyStr :=
  "urn:oasis:names:tc:SAML:2.0:nameid-format:transient".toList

/-- `saml2.saml.NAMEID_FORMAT_ENTITY`. -/
def NAMEID_FORMAT_ENTITY : PyStr :=
  "urn:oasis:names:tc:SAML:2.0:nameid-format:entity".toList

/-- `saml2.BINDING_HTTP_POST`. -/
def BINDING_HTTP_POST : PyStr :=
  "urn:oasis:names:tc:SAML:2.0:bindings:HTTP-POST".toList

/-- `saml2.BINDING_HTTP_REDIRECT`. -/
def BINDING_HTTP_REDIRECT : PyStr :=
  "urn:oasis:names:tc:SAML:2.0:bindings:HTTP-Redirect".toList

/-- Modelled from the spec: `svs.filter.PERSISTENT_NAMEID` (`svs/filter.py`
is not under `src/`).  The spec's data model fixes the two scope tokens
recognized by the identifier policy as the literal strings `"persistent"`
and `"transient"`. -/
def PERSISTENT_NAMEID : PyStr := "persistent".toList

/-- Modelled from the spec: `svs.filter.TRANSIENT_NAMEID` (`svs/filter.py`
is not under `src/`); the literal scope token `"transient"`. -/
def TRANSIENT_NAMEID : PyStr := "transient".toList

/-- The alphabet of `oic.oauth2.rndstr` (`string.ascii_letters +
string.digits`), the generator the source calls as `rndstr(256)` for
transient user identifiers.  Each output is a string of independently drawn
characters from this 62-symbol alphabet. -/
def rndstr_charset : PyStr :=
  "abcdefghijklmnopqrstuvwxyzABCDEFGHIJKLMNOPQRSTUVWXYZ0123456789".toList

/-! ## Data model -/

/-- `saml2.samlp.NameIDPolicy` as built by `SamlSp.__init__`:
`{format, allow_create}`. -/
structure NameIDPolicy where
  format : PyStr
  allow_create : PyStr
  deriving DecidableEq, Repr

/-- `saml2.saml.Issuer` as built by `SamlSp.__init__`: `{text, format}`. -/
structure IssuerM where
  text : PyStr
  format : PyStr
  deriving DecidableEq, Repr

/-- The fields of the `saml2.samlp.AuthnRequest` constructed by
`SamlSp.construct_authn_request`.  Optional keyword arguments that the
source only sets conditionally are `Option`s. -/
structure AuthnRequestM where
  id : PyStr
  version : PyStr
  issue_instant : PyStr
  issuer : IssuerM
  name_id_policy : NameIDPolicy
  force_authn : PyStr
  destination : PyStr
  assertion_consumer_service_url : Option PyStr
  protocol_binding : Option PyStr
  assertion_consumer_service_index : Option PyStr
  deriving DecidableEq, Repr

/-- The asserted SAML name id (`_response.assertion.subject.name_id`):
an XML element whose `text` may be Python `None`. -/
structure PyNameID where
  text : Option PyStr
  format : PyStr
  deriving DecidableEq, Repr

/-- The attribute bag `_response.ava`: a Python dict from attribute name to
list of values, modelled as an association list. -/
abbrev AVA := List (PyStr × List PyStr)

/-- The data this core reads from a parsed `pysaml2` authentication
response: name id, attribute bag, the authentication instants of the
assertion's `authn_statement` list, and the asserting issuer's text. -/
structure ParsedResponse where
  name_id : PyNameID
  ava : AVA
  authn_instants : List PyStr
  issuer_text : PyStr
  deriving DecidableEq, Repr

/-- The external `pysaml2` response parser/validator
(`Base.parse_authn_request_response`), per spec §6 `parseAndValidate`:
given the raw response and the binding, either a validated response or an
exception (modelled as `.error ()`). -/
abbrev ResponseParser := PyStr → PyStr → Except Unit ParsedResponse

/-- Result of the delegated metadata lookup
(`MetaDataMDX.service(entity_id, "idpsso_descriptor",
"single_sign_on_service")`): a connection failure
(`saml2.httpbase.ConnectionError`), `None` for an unknown entity, or a dict
from binding to endpoint locations. -/
inductive MdsResult : Type
  | connError
  | unknown
  | found (destinations : List (PyStr × List PyStr))
  deriving DecidableEq, Repr

/-- Exceptions raised out of `SamlSp` methods: `AuthnFailure`,
`ServiceErrorException` (with its message), exceptions of the external
parser, the metadata `ConnectionError`, and uncaught Python
`IndexError`/`KeyError`. -/
inductive SamlSpError : Type
  | authnFailure
  | serviceError (msg : PyStr)
  | parseError
  | connectionError
  | indexError
  | keyError
  deriving DecidableEq, Repr

/-- The validated SP configuration of one persona (spec §6: configuration
"is loaded externally and passed in as already-validated structures").
`assertion_consumer_service` and `discovery_response` are ordered
`(url, binding)` lists; `name_id_format` is the configured format list. -/
structure SPConf where
  entityid : PyStr
  assertion_consumer_service : List (PyStr × PyStr)
  name_id_format : List PyStr
  deriving DecidableEq, Repr

/-- The `SamlSp` object state after `SamlSp.__init__`. -/
structure SamlSp where
  idp_query_param : PyStr
  disco_srv : PyStr
  force_authn : Bool
  sign_func : Option (AuthnRequestM → PyStr)
  response_binding : PyStr
  response_url : PyStr
  nameid_policy : NameIDPolicy
  entityid : PyStr
  issuer : IssuerM
  allow_unsolicited : Bool

/-- `SamlSp.__init__(conf, disco_srv, force_authn, sign_func)`: reads the
first assertion-consumer endpoint and the first configured NameID format;
an empty configuration list would raise `IndexError` at startup (`none`). -/
def mkSamlSp (conf : SPConf) (disco_srv : PyStr) (force_authn : Bool)
    (sign_func : Option (AuthnRequestM → PyStr)) : Option SamlSp :=
  match conf.assertion_consumer_service, conf.name_id_format with
  | (url₀, binding₀) :: _, format₀ :: _ =>
    some
      { idp_query_param := "IdpQuery".toList
        disco_srv := disco_srv
        force_authn := force_authn
        sign_func := sign_func
        response_binding := binding₀
        response_url := url₀
        nameid_policy := ⟨format₀, "false".toList⟩
        entityid := conf.entityid
        issuer := ⟨conf.entityid, NAMEID_FORMAT_ENTITY⟩
        allow_unsolicited := true }
  | _, _ => none

/-- `SamlSp.construct_authn_request(idp_entity_id, mds, nameid_policy,
assertion_consumer_service_url, assertion_consumer_service_index)`.
The fresh request id (`sid()`) and issue instant (`instant()`) are supplied
by the caller as `freshId`/`now` since they are nondeterministic. -/
def construct_authn_request (sp : SamlSp) (idp_entity_id : PyStr)
    (mds : PyStr → MdsResult) (nameid_policy : NameIDPolicy)
    (freshId now acs_url acs_index : PyStr) :
    Except SamlSpError (AuthnRequestM × PyStr) :=
  match mds idp_entity_id with
  | .connError => .error .connectionError
  | .unknown =>
    .error (.serviceError
      ("IdP '".toList ++ idp_entity_id ++ "' not known in MDX".toList))
  | .found destinations =>
    let binding? : Option PyStr :=
      if dictContains destinations BINDING_HTTP_POST then some BINDING_HTTP_POST
      else if dictContains destinations BINDING_HTTP_REDIRECT then
        some BINDING_HTTP_REDIRECT
      else none
    match binding? with
    | none =>
      .error (.serviceError
        "IdP does not support http-post or http-redirect binding".toList)
    | some binding =>
      match dictGet destinations binding with
      | none => .error .keyError
      | some [] => .error .indexError
      | some (location :: _) =>
        let acsArg : Option PyStr × Option PyStr :=
          if acs_url ≠ [] then (some acs_url, some sp.response_binding)
          else (none, none)
        .ok
          ({ id := freshId
             version := "2.0".toList
             issue_instant := now
             issuer := sp.issuer
             name_id_policy := nameid_policy
             force_authn :=
               if sp.force_authn then "true".toList else "false".toList
             destination := location
             assertion_consumer_service_url := acsArg.1
             protocol_binding := acsArg.2
             assertion_consumer_service_index :=
               if acs_index ≠ [] then some acs_index else none }, binding)

/-- Python truthiness of an optional string (`None` and `''` are falsy). -/
def pyTruthyOptStr : Option PyStr → Bool
  | none => false
  | some s => !s.isEmpty

/-- `SamlSp.parse_auth_response(SAMLResponse, binding)`: an absent or empty
response raises `AuthnFailure`; otherwise parsing/validation is delegated
to the external `pysaml2` parser, whose exceptions propagate (`parseError`),
and the result tuple `(name_id, ava, authn_instant, issuer text)` is built
(indexing `authn_statement[0]` raises `IndexError` when empty). -/
def parse_auth_response (extParse : ResponseParser)
    (SAMLResponse : Option PyStr) (binding : PyStr) :
    Except SamlSpError (PyNameID × AVA × PyStr × PyStr) :=
  if pyTruthyOptStr SAMLResponse = false then .error .authnFailure
  else
    match extParse (SAMLResponse.getD []) binding with
    | .error _ => .error .parseError
    | .ok r =>
      match r.authn_instants with
      | [] => .error .indexError
      | t₀ :: _ => .ok (r.name_id, r.ava, t₀, r.issuer_text)

/-- The `ht_args` returned by the delegated `Base.apply_binding`. -/
structure HtArgs where
  headers : List (PyStr × PyStr)
  data : List PyStr

/-- External collaborators of `SamlSp.redirect_to_auth`: message
serialization (`str(request)`), transport encoding
(`Base.apply_binding`), and the fresh id / issue instant draws. -/
structure SamlLibExt where
  str_request : AuthnRequestM → PyStr
  apply_binding : PyStr → PyStr → PyStr → PyStr → HtArgs
  freshId : PyStr
  now : PyStr

/-- The HTTP response produced for the user agent: a `303 See Other`
redirect or a `200 OK` HTML page. -/
inductive HttpResp : Type
  | seeOther (location : PyStr)
  | okPage (body : PyStr) (headers : List (PyStr × PyStr))
  deriving DecidableEq, Repr

/-- The `for`/`break`/`else` loop in `SamlSp.redirect_to_auth`: the first
`Location` header's value. -/
def findLocationHeader : List (PyStr × PyStr) → Option PyStr
  | [] => none
  | (param, value) :: t =>
    if param = "Location".toList then some value else findLocationHeader t

/-- `SamlSp.redirect_to_auth(metadata, entity_id, relay_state)`: construct
the authentication request (with the SP's own nameid policy and response
url), serialize (signing if configured), apply the chosen binding, and
build a `SeeOther` redirect (HTTP-Redirect) or an auto-submit page
(HTTP-POST); a redirect encoding without a `Location` header raises
`ServiceErrorException("Parameter error")`. -/
def redirect_to_auth (sp : SamlSp) (ext : SamlLibExt) (mds : PyStr → MdsResult)
    (entity_id relay_state : PyStr) : Except SamlSpError HttpResp :=
  match construct_authn_request sp entity_id mds sp.nameid_policy
      ext.freshId ext.now sp.response_url [] with
  | .error e => .error e
  | .ok (request, binding) =>
    let msg_str :=
      match sp.sign_func with
      | some f => f request
      | none => ext.str_request request
    let ht_args := ext.apply_binding binding msg_str request.destination relay_state
    if binding = BINDING_HTTP_REDIRECT then
      match findLocationHeader ht_args.headers with
      | some v => .ok (.seeOther v)
      | none => .error (.serviceError "Parameter error".toList)
    else .ok (.okPage ht_args.data.flatten ht_args.headers)

/-! ## `InAcademiaSAMLBackend` -/

/-- The transaction session data this core reads
(`transaction_session["scope"]`, `transaction_session["client_id"]`). -/
structure TransactionSession where
  scope : List PyStr
  client_id : PyStr
  deriving DecidableEq, Repr

/-- The backend state after `InAcademiaSAMLBackend.__init__`: the dict of
SP personas keyed by identifier policy. -/
structure InAcademiaSAMLBackend where
  SP : List (PyStr × SamlSp)

/-- The SP-building loop of `InAcademiaSAMLBackend.__init__`: each
configured persona is wrapped in a `SamlSp` with `force_authn=True` and no
signing function (`load_sp_config` is external; its result is the `config`
association list). -/
def buildSPs (config : List (PyStr × SPConf)) (disco_url : PyStr) :
    Option (List (PyStr × SamlSp)) :=
  match config with
  | [] => some []
  | (key, conf) :: t =>
    match mkSamlSp conf disco_url true none, buildSPs t disco_url with
    | some sp, some rest => some ((key, sp) :: rest)
    | _, _ => none

/-- `InAcademiaSAMLBackend.__init__(base_url, mdx_url, disco_url)`,
restricted to the state the claims concern (the metadata object is the
external `mds` collaborator passed to the operations). -/
def mkInAcademiaSAMLBackend (config : List (PyStr × SPConf))
    (disco_url : PyStr) : Option InAcademiaSAMLBackend :=
  (buildSPs config disco_url).map InAcademiaSAMLBackend.mk

/-- `InAcademiaSAMLBackend._choose_service_provider(scope)`: key
`PERSISTENT_NAMEID` when that token is in the scope, else
`TRANSIENT_NAMEID`; `none` models the `KeyError` of a missing persona. -/
def choose_service_provider (b : InAcademiaSAMLBackend) (scope : List PyStr) :
    Option SamlSp :=
  let sp_key := if PERSISTENT_NAMEID ∈ scope then PERSISTENT_NAMEID else TRANSIENT_NAMEID
  dictGet b.SP sp_key

/-- `InAcademiaSAMLBackend._is_in_edugain(entity_id)`: parse the raw
entity id, then test whether `"true"` is among the values of the
`inedugain` query parameter, defaulting to `["true"]` when absent. -/
def is_in_edugain (entity_id : PyStr) : Except UrlValueError Bool :=
  match urlparsePy entity_id with
  | .error e => .error e
  | .ok parsed =>
    .ok (pyListIn "true".toList
      (dictGetD (parse_qsPy parsed.query) "inedugain".toList ["true".toList]))

/-- `InAcademiaSAMLBackend._parse_idp_entity_id(entity_id)`: re-assemble
the parsed entity id without query string and fragment identifier. -/
def parse_idp_entity_id (entity_id : PyStr) : Except UrlValueError PyStr :=
  match urlparsePy entity_id with
  | .error e => .error e
  | .ok parsed =>
    .ok (urlunparsePy parsed.scheme parsed.netloc parsed.path parsed.params [] [])

/-- Failures of `InAcademiaSAMLBackend.disco`.  Modelled from the spec:
`abort_with_client_error` (`svs/message_utils.py`, not under `src/`)
terminates the transaction with an error reported to the RP; it is
modelled as the early exit `clientError` carrying the log message.
`valueError` models an uncaught `urlparse` `ValueError`; `uncaught`
models other uncaught Python exceptions escaping `redirect_to_auth`. -/
inductive DiscoError : Type
  | keyError
  | valueError
  | clientError (msg : PyStr)
  | uncaught (e : SamlSpError)
  deriving DecidableEq, Repr

/-- `InAcademiaSAMLBackend.disco(entity_id, transaction_id,
transaction_session)`: choose the persona, canonicalize the discovered
entity id, abort when the federation-membership check fails, and otherwise
construct and send the authentication request, mapping
`ServiceErrorException` and `ConnectionError` to client-error aborts. -/
def disco (b : InAcademiaSAMLBackend) (ext : SamlLibExt)
    (mds : PyStr → MdsResult) (entity_id transaction_id : PyStr)
    (transaction_session : TransactionSession) : Except DiscoError HttpResp :=
  match choose_service_provider b transaction_session.scope with
  | none => .error .keyError
  | some sp =>
    match parse_idp_entity_id entity_id with
    | .error _ => .error .valueError
    | .ok idp_entity_id =>
      match is_in_edugain entity_id with
      | .error _ => .error .valueError
      | .ok inEdugain =>
        if inEdugain = false then
          .error (.clientError
            ("Non-edugain IdP '".toList ++ idp_entity_id ++
              "' returned from discovery server".toList))
        else
          match redirect_to_auth sp ext mds idp_entity_id transaction_id with
          | .ok resp => .ok resp
          | .error .connectionError =>
            .error (.clientError "Could not contact SAML MDQ.".toList)
          | .error .authnFailure =>
            .error (.clientError
              "Could not create SAML authentication request.".toList)
          | .error (.serviceError _) =>
            .error (.clientError
              "Could not create SAML authentication request.".toList)
          | .error e => .error (.uncaught e)

/-- `InAcademiaSAMLBackend.get_name_id(name_id_from_idp, identity)`: the
asserted name id's text when its format is the persistent format, else the
first `eduPersonTargetedID` value, else the first `eduPersonPrincipalName`
value, else `None`; indexing an empty value list raises `IndexError`. -/
def get_name_id (name_id_from_idp : PyNameID) (identity : AVA) :
    Except SamlSpError (Option PyStr) :=
  if name_id_from_idp.format = NAMEID_FORMAT_PERSISTENT then
    .ok name_id_from_idp.text
  else
    match dictGet identity "eduPersonTargetedID".toList with
    | some [] => .error .indexError
    | some (v :: _) => .ok (some v)
    | none =>
      match dictGet identity "eduPersonPrincipalName".toList with
      | some [] => .error .indexError
      | some (v :: _) => .ok (some v)
      | none => .ok none

/-- The result tuple of a successful `InAcademiaSAMLBackend.acs`:
`(user_id, affiliation, identity, auth_time, idp_entity_id)`. -/
structure AcsSuccess where
  user_id : PyStr
  affiliation : Bool
  identity : AVA
  auth_time : PyStr
  idp_entity_id : PyStr
  deriving DecidableEq, Repr

/-- Terminal outcomes of `InAcademiaSAMLBackend.acs` other than success.
Modelled from the spec: `abort_with_client_error` and
`negative_transaction_response` (`svs/message_utils.py`, not under `src/`)
terminate the transaction — the former as an error reported to the RP, the
latter as a negative "policy not satisfied" result carrying the asserting
IdP's entity id; both are modelled as early exits.  `uncaught` models a
Python exception escaping `acs` (e.g. `IndexError` in `get_name_id`). -/
inductive AcsError : Type
  | keyError
  | clientError (msg : PyStr)
  | negative (msg : PyStr) (idp_entity_id : PyStr)
  | uncaught (e : SamlSpError)
  deriving DecidableEq, Repr

/-- `InAcademiaSAMLBackend.acs(SAMLResponse, binding, transaction_id,
transaction_session)`: parse the response (`AuthnFailure` and other parse
exceptions abort with distinct messages), apply the scope-keyed affiliation
function (external, spec §6 `getAffiliationFunction`), emit a negative
result on failed affiliation, then resolve the user identifier — via
`get_name_id` for persistent scopes (negative result when `None`), via a
fresh `rndstr(256)` draw otherwise. -/
def acs (b : InAcademiaSAMLBackend) (extParse : ResponseParser)
    (getAffiliation : List PyStr → AVA → Bool) (rndstr : Nat → PyStr)
    (SAMLResponse : Option PyStr) (binding transaction_id : PyStr)
    (transaction_session : TransactionSession) : Except AcsError AcsSuccess :=
  match choose_service_provider b transaction_session.scope with
  | none => .error .keyError
  | some _ =>
    match parse_auth_response extParse SAMLResponse binding with
    | .error .authnFailure =>
      .error (.clientError "User not authenticated at IdP.".toList)
    | .error _ =>
      .error (.clientError
        "Could not parse Authentication Response from IdP.".toList)
    | .ok (name_id, identity, auth_time, idp_entity_id) =>
      if getAffiliation transaction_session.scope identity = false then
        .error (.negative
          "The user does not have the correct affiliation.".toList
          idp_entity_id)
      else if PERSISTENT_NAMEID ∈ transaction_session.scope then
        match get_name_id name_id identity with
        | .error e => .error (.uncaught e)
        | .ok none =>
          .error (.negative
            "The users identity could not be provided.".toList idp_entity_id)
        | .ok (some user_id) =>
          .ok ⟨user_id, getAffiliation transaction_session.scope identity,
            identity, auth_time, idp_entity_id⟩
      else
        .ok ⟨rndstr 256, getAffiliation transaction_session.scope identity,
          identity, auth_time, idp_entity_id⟩

/-! ## Decidability helper -/

/-- Decidable equality for `Except`, for evaluating concrete outcomes. -/
def exceptDecEq {ε α : Type} [DecidableEq ε] [DecidableEq α] :
    (a b : Except ε α) → Decidable (a = b)
  | .error e, .error e' =>
    if h : e = e' then .isTrue (by rw [h])
    else .isFalse (fun hc => h (by cases hc; rfl))
  | .error _, .ok _ => .isFalse (fun hc => Except.noConfusion hc)
  | .ok _, .error _ => .isFalse (fun hc => Except.noConfusion hc)
  | .ok a, .ok b =>
    if h : a = b then .isTrue (by rw [h])
    else .isFalse (fun hc => h (by cases hc; rfl))

instance {ε α : Type} [DecidableEq ε] [DecidableEq α] : DecidableEq (Except ε α) :=
  exceptDecEq

/-! ## Sample configuration (used by witnesses) -/

/-- A concrete durable-identifier SP persona. -/
def samplePersistentSP : SamlSp :=
  { idp_query_param := "IdpQuery".toList
    disco_srv := "https://disco.example".toList
    force_authn := true
    sign_func := none
    response_binding := BINDING_HTTP_POST
    response_url := "https://sp.example/p/acs/post".toList
    nameid_policy := ⟨NAMEID_FORMAT_PERSISTENT, "false".toList⟩
    entityid := "https://sp.example/p".toList
    issuer := ⟨"https://sp.example/p".toList, NAMEID_FORMAT_ENTITY⟩
    allow_unsolicited := true }

/-- A concrete ephemeral-identifier SP persona. -/
def sampleTransientSP : SamlSp :=
  { idp_query_param := "IdpQuery".toList
    disco_srv := "https://disco.example".toList
    force_authn := true
    sign_func := none
    response_binding := BINDING_HTTP_POST
    response_url := "https://sp.example/t/acs/post".toList
    nameid_policy := ⟨NAMEID_FORMAT_TRANSIENT, "false".toList⟩
    entityid := "https://sp.example/t".toList
    issuer := ⟨"https://sp.example/t".toList, NAMEID_FORMAT_ENTITY⟩
    allow_unsolicited := true }

/-- A backend holding both personas, as built at startup. -/
def sampleBackend : InAcademiaSAMLBackend :=
  ⟨[(PERSISTENT_NAMEID, samplePersistentSP), (TRANSIENT_NAMEID, sampleTransientSP)]⟩

/-- A concrete validated response from an IdP. -/
def sampleResponse : ParsedResponse :=
  { name_id := ⟨some "abc123".toList, NAMEID_FORMAT_TRANSIENT⟩
    ava := [("eduPersonAffiliation".toList, ["student".toList])]
    authn_instants := ["2015-01-01T00:00:00Z".toList]
    issuer_text := "https://idp.example/sso".toList }

/-! ## C1 — persona selection -/

/-- C1: `_choose_service_provider` is a deterministic total function of the
scope: when the literal token `"persistent"` is a member of the scope the
durable (persistent) persona is returned, and for every other scope the
ephemeral (transient) persona is returned (given the registry holds both
personas, as the startup configuration guarantees). -/
theorem choose_service_provider_by_scope
    (b : InAcademiaSAMLBackend) (scope : List PyStr) (spP spT : SamlSp)
    (hP : dictGet b.SP PERSISTENT_NAMEID = some spP)
    (hT : dictGet b.SP TRANSIENT_NAMEID = some spT) :
    (PERSISTENT_NAMEID ∈ scope → choose_service_provider b scope = some spP) ∧
    (PERSISTENT_NAMEID ∉ scope → choose_service_provider b scope = some spT) := by
  constructor
  · intro h
    simp only [choose_service_provider, if_pos h]
    exact hP
  · intro h
    simp only [choose_service_provider, if_neg h]
    exact hT

/-- Witness for C1 at concrete scopes `["persistent"]` and
`["transient", "affiliated"]`. -/
theorem choose_service_provider_by_scope_witness :
    choose_service_provider sampleBackend [PERSISTENT_NAMEID] = some samplePersistentSP ∧
    choose_service_provider sampleBackend ["transient".toList, "affiliated".toList]
      = some sampleTransientSP := by
  constructor
  · exact (choose_service_provider_by_scope sampleBackend [PERSISTENT_NAMEID]
      samplePersistentSP sampleTransientSP rfl rfl).1 (by decide)
  · exact (choose_service_provider_by_scope sampleBackend
      ["transient".toList, "affiliated".toList]
      samplePersistentSP sampleTransientSP rfl rfl).2 (by decide)

/-! ## C3 — durable user-identifier precedence -/

/-- C3: for a durable scope, `get_name_id` derives the user identifier in
strict precedence order: the asserted name id's text is used only when its
format equals the persistent NameID format; otherwise the first
`eduPersonTargetedID` value; otherwise the first `eduPersonPrincipalName`
value; and `None` when none of these apply. -/
theorem get_name_id_precedence (nid : PyNameID) (identity : AVA) :
    (nid.format = NAMEID_FORMAT_PERSISTENT →
      get_name_id nid identity = .ok nid.text) ∧
    (nid.format ≠ NAMEID_FORMAT_PERSISTENT → ∀ v vs,
      dictGet identity ("eduPersonTargetedID".toList) = some (v :: vs) →
      get_name_id nid identity = .ok (some v)) ∧
    (nid.format ≠ NAMEID_FORMAT_PERSISTENT →
      dictGet identity ("eduPersonTargetedID".toList) = none →
      ∀ v vs,
        dictGet identity ("eduPersonPrincipalName".toList) = some (v :: vs) →
        get_name_id nid identity = .ok (some v)) ∧
    (nid.format ≠ NAMEID_FORMAT_PERSISTENT →
      dictGet identity ("eduPersonTargetedID".toList) = none →
      dictGet identity ("eduPersonPrincipalName".toList) = none →
      get_name_id nid identity = .ok none) := by
  refine ⟨?_, ?_, ?_, ?_⟩
  · intro h
    unfold get_name_id
    rw [if_pos h]
  · intro h v vs hd
    unfold get_name_id
    rw [if_neg h, hd]
  · intro h hd v vs hd'
    unfold get_name_id
    rw [if_neg h, hd, hd']
  · intro h hd hd'
    unfold get_name_id
    rw [if_neg h, hd, hd']

/-- Witness for C3: a non-durable-format name id together with a populated
`eduPersonTargetedID` resolves to the EPTID value, and an identity with
neither EPTID nor EPPN resolves to `None`. -/
theorem get_name_id_precedence_witness :
    get_name_id ⟨some "abc123".toList, NAMEID_FORMAT_TRANSIENT⟩
        [("eduPersonTargetedID".toList, ["eptid-value".toList])]
      = .ok (some "eptid-value".toList) ∧
    get_name_id ⟨some "abc123".toList, NAMEID_FORMAT_TRANSIENT⟩
        [("displayName".toList, ["Ada".toList])]
      = .ok none := by
  constructor
  · exact (get_name_id_precedence ⟨some "abc123".toList, NAMEID_FORMAT_TRANSIENT⟩
      [("eduPersonTargetedID".toList, ["eptid-value".toList])]).2.1
      (by decide) ("eptid-value".toList) [] (by decide)
  · exact (get_name_id_precedence ⟨some "abc123".toList, NAMEID_FORMAT_TRANSIENT⟩
      [("displayName".toList, ["Ada".toList])]).2.2.2
      (by decide) (by decide) (by decide)

/-! ## C2 — binding selection policy -/

/-- C2: when building an authentication request from a metadata result,
HTTP-POST is chosen whenever the metadata offers an HTTP-POST endpoint
(even if HTTP-Redirect is also offered); HTTP-Redirect is chosen when only
it offers an endpoint; and when neither binding is present the request
fails with the unsupported-binding `ServiceErrorException`.  "Offers" is
read as providing at least one endpoint location for the binding. -/
theorem construct_authn_request_binding_preference
    (sp : SamlSp) (idp : PyStr) (mds : PyStr → MdsResult) (np : NameIDPolicy)
    (freshId now acs_url acs_index : PyStr)
    (dests : List (PyStr × List PyStr)) (hmds : mds idp = .found dests) :
    (∀ loc eps, dictGet dests BINDING_HTTP_POST = some (loc :: eps) →
      ∃ req, construct_authn_request sp idp mds np freshId now acs_url acs_index
          = .ok (req, BINDING_HTTP_POST) ∧ req.destination = loc) ∧
    (dictGet dests BINDING_HTTP_POST = none →
      ∀ loc eps, dictGet dests BINDING_HTTP_REDIRECT = some (loc :: eps) →
      ∃ req, construct_authn_request sp idp mds np freshId now acs_url acs_index
          = .ok (req, BINDING_HTTP_REDIRECT) ∧ req.destination = loc) ∧
    (dictGet dests BINDING_HTTP_POST = none →
      dictGet dests BINDING_HTTP_REDIRECT = none →
      construct_authn_request sp idp mds np freshId now acs_url acs_index
        = .error (.serviceError
            "IdP does not support http-post or http-redirect binding".toList)) := by
  refine ⟨?_, ?_, ?_⟩
  · intro loc eps hpost
    unfold construct_authn_request
    rw [hmds]
    simp only [dictContains, hpost, Option.isSome_some, if_true, hpost]
    exact ⟨_, rfl, rfl⟩
  · intro hpost loc eps hred
    unfold construct_authn_request
    rw [hmds]
    simp only [dictContains, hpost, Option.isSome_none, Bool.false_eq_true, if_false,
      hred, Option.isSome_some, if_true]
    exact ⟨_, rfl, rfl⟩
  · intro hpost hred
    unfold construct_authn_request
    rw [hmds]
    simp only [dictContains, hpost, hred, Option.isSome_none, Bool.false_eq_true, if_false]

/-- Witness for C2: metadata offering both bindings yields HTTP-POST with
the first POST location as destination. -/
theorem construct_authn_request_binding_preference_witness :
    ∃ req,
      construct_authn_request sampleTransientSP ("https://idp.example/sso".toList)
          (fun _ => .found
            [(BINDING_HTTP_REDIRECT, ["https://idp.example/sso/redirect".toList]),
             (BINDING_HTTP_POST, ["https://idp.example/sso/post".toList])])
          sampleTransientSP.nameid_policy
          ("id123".toList) ("2015-01-01T00:00:00Z".toList)
          ("https://sp.example/t/acs/post".toList) []
        = .ok (req, BINDING_HTTP_POST) ∧
      req.destination = "https://idp.example/sso/post".toList :=
  (construct_authn_request_binding_preference sampleTransientSP
    ("https://idp.example/sso".toList) _ sampleTransientSP.nameid_policy
    ("id123".toList) ("2015-01-01T00:00:00Z".toList)
    ("https://sp.example/t/acs/post".toList) []
    [(BINDING_HTTP_REDIRECT, ["https://idp.example/sso/redirect".toList]),
     (BINDING_HTTP_POST, ["https://idp.example/sso/post".toList])] rfl).1
    ("https://idp.example/sso/post".toList) [] (by decide)

/-! ## C10 — forced authentication -/

/-- Every persona built by the backend's startup loop has
`force_authn = True`. -/
theorem buildSPs_force_authn
    (disco_url : PyStr) :
    ∀ (config : List (PyStr × SPConf)) (l : List (PyStr × SamlSp)),
      buildSPs config disco_url = some l →
      ∀ key sp, dictGet l key = some sp → sp.force_authn = true := by
  intro config
  induction config with
  | nil =>
    intro l hl key sp hsp
    simp only [buildSPs, Option.some.injEq] at hl
    subst hl
    simp [dictGet] at hsp
  | cons kc t ih =>
    intro l hl key sp hsp
    obtain ⟨k, c⟩ := kc
    unfold buildSPs at hl
    cases hmk : mkSamlSp c disco_url true none with
    | none => rw [hmk] at hl; simp at hl
    | some sp₀ =>
      cases hrest : buildSPs t disco_url with
      | none => rw [hmk, hrest] at hl; simp at hl
      | some rest =>
        rw [hmk, hrest] at hl
        simp only [Option.some.injEq] at hl
        subst hl
        unfold dictGet at hsp
        by_cases hk : k = key
        · rw [if_pos hk] at hsp
          cases hsp
          unfold mkSamlSp at hmk
          rcases hacs : c.assertion_consumer_service with _ | ⟨⟨u, bd⟩, tl⟩ <;>
            rw [hacs] at hmk
          · cases hmk
          · rcases hfmt : c.name_id_format with _ | ⟨f, ftl⟩ <;> rw [hfmt] at hmk
            · cases hmk
            · cases hmk; rfl
        · rw [if_neg hk] at hsp
          exact ih rest hrest key sp hsp

/-- C10: every persona the backend constructs carries
`force_authn = True`, and every authentication request built through such a
persona has its forced-authentication flag set to the string `"true"`. -/
theorem force_authn_always_true
    (config : List (PyStr × SPConf)) (disco_url : PyStr)
    (b : InAcademiaSAMLBackend)
    (hb : mkInAcademiaSAMLBackend config disco_url = some b)
    (key : PyStr) (sp : SamlSp) (hsp : dictGet b.SP key = some sp) :
    sp.force_authn = true ∧
    ∀ idp mds np freshId now acs_url acs_index req binding,
      construct_authn_request sp idp mds np freshId now acs_url acs_index
        = .ok (req, binding) →
      req.force_authn = "true".toList := by
  have hfa : sp.force_authn = true := by
    unfold mkInAcademiaSAMLBackend at hb
    cases hbuild : buildSPs config disco_url with
    | none => rw [hbuild] at hb; cases hb
    | some l =>
      rw [hbuild] at hb
      have hb' : InAcademiaSAMLBackend.mk l = b := Option.some.inj hb
      subst hb'
      exact buildSPs_force_authn disco_url config l hbuild key sp hsp
  refine ⟨hfa, ?_⟩
  intro idp mds np freshId now acs_url acs_index req binding hok
  unfold construct_authn_request at hok
  cases hm : mds idp with
  | connError => rw [hm] at hok; cases hok
  | unknown => rw [hm] at hok; cases hok
  | found destinations =>
    rw [hm] at hok
    simp only [ne_eq] at hok
    split at hok
    · cases hok
    · split at hok
      · cases hok
      · cases hok
      · simp only [Except.ok.injEq, Prod.mk.injEq] at hok
        obtain ⟨hreq, -⟩ := hok
        subst hreq
        simp [hfa]

/-- A concrete one-persona configuration for the C10 witness. -/
def sampleSPConfig : List (PyStr × SPConf) :=
  [(TRANSIENT_NAMEID,
    ⟨"https://sp.example/t".toList,
     [("https://sp.example/t/acs/post".toList, BINDING_HTTP_POST)],
     [NAMEID_FORMAT_TRANSIENT]⟩)]

/-- Witness for C10 at a concrete one-persona configuration. -/
theorem force_authn_always_true_witness :
    ∃ sp : SamlSp,
      dictGet ((mkInAcademiaSAMLBackend sampleSPConfig
          ("https://disco.example".toList)).getD ⟨[]⟩).SP TRANSIENT_NAMEID
        = some sp ∧
      sp.force_authn = true := by
  refine ⟨_, rfl, ?_⟩
  exact (force_authn_always_true sampleSPConfig ("https://disco.example".toList)
    _ rfl TRANSIENT_NAMEID _ rfl).1

/-! ## C4 — empty response is an authentication failure, distinct from
parse errors -/

/-- C4: an absent or empty raw authentication response makes
`parse_auth_response` raise `AuthnFailure`, which `acs` reports as the
"User not authenticated at IdP." abort; a non-empty but invalid response
instead surfaces the parser's exception, which `acs` reports as the
"Could not parse Authentication Response from IdP." abort; the two
failures are distinct at both levels. -/
theorem empty_response_authn_failure
    (b : InAcademiaSAMLBackend) (extParse : ResponseParser)
    (getAffiliation : List PyStr → AVA → Bool) (rndstr : Nat → PyStr)
    (raw : Option PyStr) (binding transaction_id : PyStr)
    (session : TransactionSession) (sp : SamlSp)
    (hsp : choose_service_provider b session.scope = some sp)
    (hraw : raw = none ∨ raw = some []) :
    parse_auth_response extParse raw binding = .error .authnFailure ∧
    acs b extParse getAffiliation rndstr raw binding transaction_id session
      = .error (.clientError "User not authenticated at IdP.".toList) ∧
    (∀ (s : PyStr) (extParse' : ResponseParser), s ≠ [] →
      extParse' s binding = .error () →
      parse_auth_response extParse' (some s) binding = .error .parseError ∧
      acs b extParse' getAffiliation rndstr (some s) binding transaction_id
          session
        = .error (.clientError
            "Could not parse Authentication Response from IdP.".toList)) ∧
    SamlSpError.authnFailure ≠ SamlSpError.parseError ∧
    AcsError.clientError "User not authenticated at IdP.".toList
      ≠ AcsError.clientError
          "Could not parse Authentication Response from IdP.".toList := by
  have hfalsy : pyTruthyOptStr raw = false := by
    rcases hraw with h | h <;> subst h <;> rfl
  have hparse : parse_auth_response extParse raw binding = .error .authnFailure := by
    unfold parse_auth_response
    rw [hfalsy]
    rfl
  refine ⟨hparse, ?_, ?_, by decide, by decide⟩
  · unfold acs
    rw [hsp, hparse]
  · intro s extParse' hs hfail
    have htruthy : pyTruthyOptStr (some s) = true := by
      unfold pyTruthyOptStr
      simp [hs]
    have hparse' :
        parse_auth_response extParse' (some s) binding = .error .parseError := by
      unfold parse_auth_response
      rw [htruthy]
      simp only [Bool.true_eq_false, if_false, Option.getD_some, hfail]
    refine ⟨hparse', ?_⟩
    unfold acs
    rw [hsp, hparse']

/-- Witness for C4 at a concrete transaction with an empty raw response. -/
theorem empty_response_authn_failure_witness :
    acs sampleBackend (fun _ _ => .ok sampleResponse) (fun _ _ => true)
        (fun _ => "r".toList) (some []) BINDING_HTTP_POST ("t1".toList)
        ⟨[TRANSIENT_NAMEID], "client".toList⟩
      = .error (.clientError "User not authenticated at IdP.".toList) :=
  (empty_response_authn_failure sampleBackend (fun _ _ => .ok sampleResponse)
    (fun _ _ => true) (fun _ => "r".toList) (some []) BINDING_HTTP_POST
    ("t1".toList) ⟨[TRANSIENT_NAMEID], "client".toList⟩ sampleTransientSP rfl
    (Or.inr rfl)).2.1

/-! ## C5 — transient scope yields a fresh random identifier -/

/-- C5: for an ephemeral (transient) scope and a valid response, the
resolved user identifier is exactly the fresh `rndstr(256)` draw of the
transaction: every successful outcome carries `rndstr 256` as user id
whatever the parsed response was (so the identifier is not derived from the
asserted name id or attributes); two transactions with distinct draws get
distinct identifiers; the identifier differs from every string the draw
differs from (in particular the name id text and all attribute values);
and the draw space (62 alphabet symbols, length 256) has at least `2^256`
elements. -/
theorem transient_user_id_fresh_random
    (b : InAcademiaSAMLBackend) (extParse : ResponseParser)
    (getAffiliation : List PyStr → AVA → Bool) (rndstr rndstr' : Nat → PyStr)
    (s : PyStr) (binding transaction_id : PyStr)
    (session : TransactionSession) (sp : SamlSp) (r : ParsedResponse)
    (t₀ : PyStr) (ts : List PyStr)
    (hsp : choose_service_provider b session.scope = some sp)
    (hscope : PERSISTENT_NAMEID ∉ session.scope)
    (hs : s ≠ [])
    (hext : extParse s binding = .ok r)
    (haff : getAffiliation session.scope r.ava = true)
    (hinst : r.authn_instants = t₀ :: ts) :
    acs b extParse getAffiliation rndstr (some s) binding transaction_id session
      = .ok ⟨rndstr 256, true, r.ava, t₀, r.issuer_text⟩ ∧
    (∀ (extParse₂ : ResponseParser) (raw₂ : Option PyStr) (res : AcsSuccess),
      acs b extParse₂ getAffiliation rndstr raw₂ binding transaction_id session
        = .ok res →
      res.user_id = rndstr 256) ∧
    (rndstr 256 ≠ rndstr' 256 →
      ∀ res res' : AcsSuccess,
        acs b extParse getAffiliation rndstr (some s) binding transaction_id
            session = .ok res →
        acs b extParse getAffiliation rndstr' (some s) binding transaction_id
            session = .ok res' →
        res.user_id ≠ res'.user_id) ∧
    (∀ v : PyStr, rndstr 256 ≠ v →
      ∀ res : AcsSuccess,
        acs b extParse getAffiliation rndstr (some s) binding transaction_id
            session = .ok res →
        res.user_id ≠ v) ∧
    2 ^ 256 ≤ rndstr_charset.length ^ 256 := by
  have huid : ∀ (extParse₂ : ResponseParser) (raw₂ : Option PyStr)
      (rnd : Nat → PyStr) (res : AcsSuccess),
      acs b extParse₂ getAffiliation rnd raw₂ binding transaction_id session
        = .ok res →
      res.user_id = rnd 256 := by
    intro extParse₂ raw₂ rnd res hok
    unfold acs at hok
    rcases hp : parse_auth_response extParse₂ raw₂ binding with e | ⟨nid, identity, auth_time, idp⟩
    · cases e <;> simp [hsp, hp] at hok
    · by_cases haf : getAffiliation session.scope identity = false
      · simp [hsp, hp, haf] at hok
      · simp [hsp, hp, haf, hscope] at hok
        subst hok
        rfl
  have hmain :
      acs b extParse getAffiliation rndstr (some s) binding transaction_id
        session = .ok ⟨rndstr 256, true, r.ava, t₀, r.issuer_text⟩ := by
    have hparse :
        parse_auth_response extParse (some s) binding
          = .ok (r.name_id, r.ava, t₀, r.issuer_text) := by
      unfold parse_auth_response
      have htruthy : pyTruthyOptStr (some s) = true := by
        unfold pyTruthyOptStr
        simp [hs]
      rw [htruthy]
      simp only [Bool.true_eq_false, if_false, Option.getD_some, hext, hinst]
    unfold acs
    rw [hsp, hparse]
    simp only [haff, Bool.true_eq_false, if_false, if_neg hscope]
  refine ⟨hmain, fun e₂ r₂ res h => huid e₂ r₂ rndstr res h, ?_, ?_, ?_⟩
  · intro hne res res' hok hok'
    rw [huid extParse (some s) rndstr res hok,
      huid extParse (some s) rndstr' res' hok']
    exact hne
  · intro v hne res hok
    rw [huid extParse (some s) rndstr res hok]
    exact hne
  · have hlen : rndstr_charset.length = 62 := by decide
    rw [hlen]
    exact Nat.pow_le_pow_left (by norm_num) 256

/-- Witness for C5: a concrete transient transaction resolves to the fresh
token, not the asserted name id text `"abc123"`. -/
theorem transient_user_id_fresh_random_witness :
    acs sampleBackend (fun _ _ => .ok sampleResponse) (fun _ _ => true)
        (fun _ => "freshtoken".toList) (some "resp".toList) BINDING_HTTP_POST
        ("t1".toList) ⟨[TRANSIENT_NAMEID], "client".toList⟩
      = .ok ⟨"freshtoken".toList, true, sampleResponse.ava,
          "2015-01-01T00:00:00Z".toList, "https://idp.example/sso".toList⟩ :=
  (transient_user_id_fresh_random sampleBackend (fun _ _ => .ok sampleResponse)
    (fun _ _ => true) (fun _ => "freshtoken".toList) (fun _ => "other".toList)
    ("resp".toList) BINDING_HTTP_POST ("t1".toList)
    ⟨[TRANSIENT_NAMEID], "client".toList⟩ sampleTransientSP sampleResponse
    ("2015-01-01T00:00:00Z".toList) [] rfl (by decide) (by decide) rfl rfl
    rfl).1

/-! ## C6 — failed affiliation terminates with a negative result -/

/-- C6: when the scope-keyed affiliation function maps the parsed
attribute bag to false, `acs` terminates with a negative (not erroneous)
result carrying the asserting IdP's entity id; no success result is
produced; the outcome does not depend on the identifier generator (no user
identifier is derived); and a negative result is distinguishable from
every client-error abort. -/
theorem affiliation_false_negative_result
    (b : InAcademiaSAMLBackend) (extParse : ResponseParser)
    (getAffiliation : List PyStr → AVA → Bool) (rndstr : Nat → PyStr)
    (s : PyStr) (binding transaction_id : PyStr)
    (session : TransactionSession) (sp : SamlSp) (r : ParsedResponse)
    (t₀ : PyStr) (ts : List PyStr)
    (hsp : choose_service_provider b session.scope = some sp)
    (hs : s ≠ [])
    (hext : extParse s binding = .ok r)
    (hinst : r.authn_instants = t₀ :: ts)
    (haff : getAffiliation session.scope r.ava = false) :
    acs b extParse getAffiliation rndstr (some s) binding transaction_id session
      = .error (.negative
          "The user does not have the correct affiliation.".toList
          r.issuer_text) ∧
    (∀ res : AcsSuccess,
      acs b extParse getAffiliation rndstr (some s) binding transaction_id
          session ≠ .ok res) ∧
    (∀ rndstr' : Nat → PyStr,
      acs b extParse getAffiliation rndstr' (some s) binding transaction_id
          session
        = acs b extParse getAffiliation rndstr (some s) binding transaction_id
            session) ∧
    (∀ (m idp m' : PyStr), AcsError.negative m idp ≠ AcsError.clientError m') := by
  have hparse :
      parse_auth_response extParse (some s) binding
        = .ok (r.name_id, r.ava, t₀, r.issuer_text) := by
    unfold parse_auth_response
    have htruthy : pyTruthyOptStr (some s) = true := by
      unfold pyTruthyOptStr
      simp [hs]
    rw [htruthy]
    simp only [Bool.true_eq_false, if_false, Option.getD_some, hext, hinst]
  have hneg : ∀ rnd : Nat → PyStr,
      acs b extParse getAffiliation rnd (some s) binding transaction_id session
        = .error (.negative
            "The user does not have the correct affiliation.".toList
            r.issuer_text) := by
    intro rnd
    unfold acs
    rw [hsp, hparse]
    simp only [haff, if_true]
  refine ⟨hneg rndstr, ?_, ?_, ?_⟩
  · intro res hok
    rw [hneg rndstr] at hok
    cases hok
  · intro rndstr'
    rw [hneg rndstr, hneg rndstr']
  · intro m idp m' hc
    cases hc

/-- Witness for C6: a concrete transaction whose affiliation check fails
ends in the negative result carrying the IdP entity id. -/
theorem affiliation_false_negative_result_witness :
    acs sampleBackend (fun _ _ => .ok sampleResponse) (fun _ _ => false)
        (fun _ => "r".toList) (some "resp".toList) BINDING_HTTP_POST
        ("t1".toList) ⟨[TRANSIENT_NAMEID], "client".toList⟩
      = .error (.negative
          "The user does not have the correct affiliation.".toList
          "https://idp.example/sso".toList) :=
  (affiliation_false_negative_result sampleBackend
    (fun _ _ => .ok sampleResponse) (fun _ _ => false) (fun _ => "r".toList)
    ("resp".toList) BINDING_HTTP_POST ("t1".toList)
    ⟨[TRANSIENT_NAMEID], "client".toList⟩ sampleTransientSP sampleResponse
    ("2015-01-01T00:00:00Z".toList) [] rfl (by decide) rfl rfl rfl).1

/-! ## C7 — federation membership from a query parameter -/

/-- `pyListIn` is list membership. -/
theorem pyListIn_iff (x : PyStr) (l : List PyStr) :
    pyListIn x l = true ↔ x ∈ l := by
  unfold pyListIn
  simp [List.any_eq_true]

/-- Evaluation of `_is_in_edugain` on a parsable entity id. -/
theorem is_in_edugain_ok (entity_id : PyStr) (pr : ParseResult)
    (hp : urlparsePy entity_id = .ok pr) :
    is_in_edugain entity_id
      = .ok (pyListIn "true".toList
          (dictGetD (parse_qsPy pr.query) "inedugain".toList ["true".toList])) := by
  unfold is_in_edugain
  rw [hp]

/-- A defined `_is_in_edugain` result means the entity id parsed. -/
theorem is_in_edugain_ok_inv (entity_id : PyStr) (bv : Bool)
    (h : is_in_edugain entity_id = .ok bv) :
    ∃ pr, urlparsePy entity_id = .ok pr := by
  unfold is_in_edugain at h
  rcases hp : urlparsePy entity_id with e | pr
  · rw [hp] at h
    cases h
  · exact ⟨pr, rfl⟩

/-- Evaluation of `_parse_idp_entity_id` on a parsable entity id. -/
theorem parse_idp_entity_id_ok (entity_id : PyStr) (pr : ParseResult)
    (hp : urlparsePy entity_id = .ok pr) :
    parse_idp_entity_id entity_id
      = .ok (urlunparsePy pr.scheme pr.netloc pr.path pr.params [] []) := by
  unfold parse_idp_entity_id
  rw [hp]

/-- C7: federation membership is decided from the `inedugain` query
parameter of the raw entity identifier: when the parameter is absent the
check returns true (permissive default), and when it is present the check
returns true exactly when `"true"` is among its values. -/
theorem is_in_edugain_absent_param_true
    (entity_id : PyStr) (pr : ParseResult)
    (hp : urlparsePy entity_id = .ok pr) :
    (dictGet (parse_qsPy pr.query) "inedugain".toList = none →
      is_in_edugain entity_id = .ok true) ∧
    (∀ vs, dictGet (parse_qsPy pr.query) "inedugain".toList = some vs →
      (is_in_edugain entity_id = .ok true ↔ "true".toList ∈ vs)) := by
  constructor
  · intro h
    rw [is_in_edugain_ok entity_id pr hp]
    unfold dictGetD
    rw [h]
    rfl
  · intro vs h
    rw [is_in_edugain_ok entity_id pr hp]
    unfold dictGetD
    rw [h]
    simp only [Option.getD_some]
    constructor
    · intro hh
      exact (pyListIn_iff "true".toList vs).mp (Except.ok.inj hh)
    · intro hh
      rw [(pyListIn_iff "true".toList vs).mpr hh]

/-- Witness for C7: an entity id without the `inedugain` parameter passes
the membership check. -/
theorem is_in_edugain_absent_param_true_witness :
    is_in_edugain "https://idp.example/sso".toList = .ok true :=
  (is_in_edugain_absent_param_true "https://idp.example/sso".toList
    ⟨"https".toList, "idp.example".toList, "/sso".toList, [], [], []⟩
    (by decide)).1 (by decide)

/-! ## C8 — non-federation IdPs abort discovery before any request -/

/-- C8: when the discovered entity id fails the federation-membership
check, the discovery-return handler aborts with the non-eduGAIN
client-error — carrying the canonicalized IdP entity id — and produces no
successful redirect-to-IdP response (no authentication request is built or
sent). -/
theorem disco_non_edugain_aborts
    (b : InAcademiaSAMLBackend) (ext : SamlLibExt) (mds : PyStr → MdsResult)
    (entity_id transaction_id : PyStr) (session : TransactionSession)
    (sp : SamlSp)
    (hsp : choose_service_provider b session.scope = some sp)
    (hedu : is_in_edugain entity_id = .ok false) :
    (∃ idp, parse_idp_entity_id entity_id = .ok idp ∧
      disco b ext mds entity_id transaction_id session
        = .error (.clientError
            ("Non-edugain IdP '".toList ++ idp ++
              "' returned from discovery server".toList))) ∧
    ∀ resp, disco b ext mds entity_id transaction_id session ≠ .ok resp := by
  obtain ⟨pr, hp⟩ := is_in_edugain_ok_inv entity_id false hedu
  have hpid := parse_idp_entity_id_ok entity_id pr hp
  have hd : disco b ext mds entity_id transaction_id session
      = .error (.clientError
          ("Non-edugain IdP '".toList ++
            urlunparsePy pr.scheme pr.netloc pr.path pr.params [] [] ++
            "' returned from discovery server".toList)) := by
    unfold disco
    rw [hsp, hpid, hedu]
    rfl
  refine ⟨⟨urlunparsePy pr.scheme pr.netloc pr.path pr.params [] [], hpid, hd⟩, ?_⟩
  intro resp h
  rw [hd] at h
  cases h

/-- Witness for C8: a discovered entity id tagged `inedugain=false` aborts
the transaction with the non-eduGAIN error. -/
theorem disco_non_edugain_aborts_witness :
    disco sampleBackend
        ⟨fun _ => [], fun _ _ _ _ => ⟨[], []⟩, "id1".toList, "now".toList⟩
        (fun _ => .unknown) "https://idp.example/sso?inedugain=false".toList
        ("t1".toList) ⟨[TRANSIENT_NAMEID], "client".toList⟩
      = .error (.clientError
          ("Non-edugain IdP '".toList ++ "https://idp.example/sso".toList ++
            "' returned from discovery server".toList)) := by
  obtain ⟨⟨idp, hpid, hd⟩, -⟩ := disco_non_edugain_aborts sampleBackend
    ⟨fun _ => [], fun _ _ _ _ => ⟨[], []⟩, "id1".toList, "now".toList⟩
    (fun _ => .unknown) "https://idp.example/sso?inedugain=false".toList
    ("t1".toList) ⟨[TRANSIENT_NAMEID], "client".toList⟩ sampleTransientSP rfl
    (by decide)
  have hidp : idp = "https://idp.example/sso".toList := by
    have hconc : parse_idp_entity_id
        "https://idp.example/sso?inedugain=false".toList
        = .ok "https://idp.example/sso".toList := by decide
    rw [hpid] at hconc
    exact Except.ok.inj hconc
  rw [hidp] at hd
  exact hd

/-! ## C9 — entity-id canonicalization -/

/-- The canonicalization the claim describes, written from the spec's
words: strip the query string and fragment, retaining scheme, host
(netloc) and path only — in particular dropping the `;params` component of
the Python parse. -/
def canonical_entity_id_spec (entity_id : PyStr) : Except UrlValueError PyStr :=
  match urlparsePy entity_id with
  | .error e => .error e
  | .ok parsed =>
    .ok (urlunparsePy parsed.scheme parsed.netloc parsed.path [] [] [])

/-- Counterexample to C9 as stated: on an entity id whose path carries a
path-parameter segment, `_parse_idp_entity_id` retains the `;params` part
(`urlunparse` receives `parsed.params`), so the result is not
"scheme, host and path only". -/
theorem parse_idp_entity_id_spec_counterexample :
    parse_idp_entity_id
        "https://idp.example/sso;tag=1?inedugain=true#frag".toList
      = .ok "https://idp.example/sso;tag=1".toList ∧
    canonical_entity_id_spec
        "https://idp.example/sso;tag=1?inedugain=true#frag".toList
      = .ok "https://idp.example/sso".toList ∧
    parse_idp_entity_id
        "https://idp.example/sso;tag=1?inedugain=true#frag".toList
      ≠ canonical_entity_id_spec
          "https://idp.example/sso;tag=1?inedugain=true#frag".toList := by
  refine ⟨by decide, by decide, by decide⟩

/-- C9 (amended): for every raw entity identifier without a path-parameter
segment — no `;` in the parsed path while the scheme is one that uses
params — canonicalization strips the query string and fragment and retains
scheme, host (netloc) and path only. -/
theorem parse_idp_entity_id_strips_query_fragment
    (entity_id : PyStr) (sr : SplitResult)
    (hs : urlsplitPy entity_id = .ok sr)
    (hnp : ¬(sr.scheme ∈ uses_params ∧ ';' ∈ sr.path)) :
    parse_idp_entity_id entity_id
      = .ok (urlunsplitPy sr.scheme sr.netloc sr.path [] []) := by
  have hp : urlparsePy entity_id
      = .ok ⟨sr.scheme, sr.netloc, sr.path, [], sr.query, sr.fragment⟩ := by
    unfold urlparsePy
    rw [hs]
    simp [hnp]
  exact parse_idp_entity_id_ok entity_id _ hp

/-- Witness for C9 (amended) at the spec's concrete example:
`https://idp.example/sso?inedugain=true#frag` canonicalizes to
`https://idp.example/sso`. -/
theorem parse_idp_entity_id_strips_query_fragment_witness :
    parse_idp_entity_id "https://idp.example/sso?inedugain=true#frag".toList
      = .ok "https://idp.example/sso".toList := by
  have h := parse_idp_entity_id_strips_query_fragment
    "https://idp.example/sso?inedugain=true#frag".toList
    ⟨"https".toList, "idp.example".toList, "/sso".toList,
     "inedugain=true".toList, "frag".toList⟩
    (by decide) (by decide)
  rw [h]
  rfl
